import Mathlib

/-!
Shallow embedding of the slidescanner scanner core
(src/app/services/position_calculator.py and
src/app/services/scanner_manager.py), together with theorems checking the
natural-language specification against it.

Python integers are modelled as `Int`; floating-point quantities (durations,
elapsed times) as `ℝ`; the de-duplicated captured-position set as a
`Finset (Int × Int)`; database effects as an explicit `ScannerDB` record
threaded through the operations that touch it.
-/

namespace SlideScanner

/-- A grid position, mirroring `Position` in position_calculator.py. -/
structure Position where
  x : Int
  y : Int
  deriving DecidableEq, Repr

/-- Mirrors `Position.to_tuple` (position_calculator.py line 42). -/
def Position.to_tuple (p : Position) : Int × Int := (p.x, p.y)

/-- Mirrors `Position.is_within_bounds` (line 46): `0 <= x < grid_size and 0 <= y < grid_size`. -/
def Position.is_within_bounds (p : Position) (grid_size : Int) : Prop :=
  0 ≤ p.x ∧ p.x < grid_size ∧ 0 ≤ p.y ∧ p.y < grid_size

instance (p : Position) (g : Int) : Decidable (p.is_within_bounds g) :=
  inferInstanceAs (Decidable (_ ∧ _ ∧ _ ∧ _))

/-- Mirrors `Position.clamp_to_bounds` (line 52): clamps each coordinate into
`[0, grid_size - 1]` and returns a new `Position`. -/
def Position.clamp_to_bounds (p : Position) (grid_size : Int) : Position :=
  ⟨max 0 (min (grid_size - 1) p.x), max 0 (min (grid_size - 1) p.y)⟩

/-- Mirrors `Position.distance_to` (line 34): Euclidean distance
`sqrt((x1-x2)**2 + (y1-y2)**2)`. -/
noncomputable def Position.distance_to (a b : Position) : ℝ :=
  Real.sqrt (((a.x - b.x) ^ 2 + (a.y - b.y) ^ 2 : Int) : ℝ)

/-- The scanner-related configuration fields of `Settings` (config.py):
`grid_size`, `default_position_x`, `default_position_y`. -/
structure ScannerConfig where
  grid_size : Int
  default_position_x : Int
  default_position_y : Int

/-- The constraints config.py enforces: the pydantic field bounds
(`grid_size >= 1`, defaults `>= 0`) plus `validate_scanner_defaults`
(defaults strictly below `grid_size`). -/
def ScannerConfig.valid (c : ScannerConfig) : Prop :=
  1 ≤ c.grid_size ∧
  0 ≤ c.default_position_x ∧ c.default_position_x < c.grid_size ∧
  0 ≤ c.default_position_y ∧ c.default_position_y < c.grid_size

instance (c : ScannerConfig) : Decidable c.valid :=
  inferInstanceAs (Decidable (_ ∧ _ ∧ _ ∧ _ ∧ _))

/-- The default configuration values from config.py. -/
def defaultConfig : ScannerConfig := ⟨11, 5, 5⟩

/-- Mirrors `PositionCalculator.get_default_position` (line 129). -/
def get_default_position (c : ScannerConfig) : Position :=
  ⟨c.default_position_x, c.default_position_y⟩

/-- Mirrors `PositionCalculator.is_valid_position` (line 133). -/
def is_valid_position (grid_size : Int) (p : Position) : Prop :=
  p.is_within_bounds grid_size

instance (g : Int) (p : Position) : Decidable (is_valid_position g p) :=
  inferInstanceAs (Decidable (p.is_within_bounds g))

/-- Mirrors `PositionCalculator.calculate_target_position` (line 96): add the pending
deltas to the current position and clamp to grid bounds. -/
def calculate_target_position (grid_size : Int) (current_pos : Position)
    (horizontal_movement vertical_movement : Int) : Position :=
  (Position.mk (current_pos.x + horizontal_movement)
    (current_pos.y + vertical_movement)).clamp_to_bounds grid_size

/-- Mirrors `PositionCalculator.calculate_movement_time` (line 69): `0.0` when the
distance is zero, otherwise `movement_speed_multiplier * sqrt(distance)`. -/
noncomputable def calculate_movement_time (multiplier : ℝ) (start_pos end_pos : Position) : ℝ :=
  if start_pos.distance_to end_pos = 0 then 0
  else multiplier * Real.sqrt (start_pos.distance_to end_pos)

/-- Mirrors `OperationStatus` (utils/enums.py). -/
inductive OperationStatus where
  | ready
  | moving
  | focusing
  | completed
  deriving DecidableEq, Repr

/-- The string value stored in the database for each status. -/
def OperationStatus.value : OperationStatus → String
  | .ready => "ready"
  | .moving => "moving"
  | .focusing => "focusing"
  | .completed => "completed"

/-- Parsing a stored status string, `OperationStatus(value)` in Python;
`none` models the `ValueError` the enum constructor raises on other strings. -/
def OperationStatus.fromValue (s : String) : Option OperationStatus :=
  if s = "ready" then some .ready
  else if s = "moving" then some .moving
  else if s = "focusing" then some .focusing
  else if s = "completed" then some .completed
  else none

/-- Mirrors `Direction` (utils/enums.py). -/
inductive Direction where
  | up
  | down
  | left
  | right
  deriving DecidableEq, Repr

/-- The per-user mutable scanner state owned by `ScannerManager`
(scanner_manager.py lines 42-49 plus the `is_processing` run flag). -/
structure ScannerState where
  current_position : Position
  horizontal_movement_pending : Int
  vertical_movement_pending : Int
  operation_status : OperationStatus
  operation_start_time : Option ℝ
  current_movement_duration : Option ℝ
  captured_positions : Finset (Int × Int)
  is_processing : Bool

/-- The state a freshly constructed `ScannerManager` starts from
(`__init__`, lines 42-49). -/
def freshState (c : ScannerConfig) : ScannerState :=
  ⟨get_default_position c, 0, 0, .ready, none, none, ∅, false⟩

/-- Mirrors `self._max_pending_movements = 10000` (line 53). -/
def max_pending_movements : Int := 10000

/-- Mirrors `ScannerManager.has_pending_movements` (line 389). -/
def has_pending_movements (s : ScannerState) : Prop :=
  s.horizontal_movement_pending ≠ 0 ∨ s.vertical_movement_pending ≠ 0

/-- Mirrors `ScannerManager._is_valid_movement` (lines 126-154): apply the direction
delta to a copy of the pending counters, resolve the (clamped) target and
check it with `is_valid_position`. -/
def _is_valid_movement (c : ScannerConfig) (s : ScannerState) (d : Direction) : Bool :=
  let temp_horizontal : Int :=
    match d with
    | .left => s.horizontal_movement_pending - 1
    | .right => s.horizontal_movement_pending + 1
    | _ => s.horizontal_movement_pending
  let temp_vertical : Int :=
    match d with
    | .up => s.vertical_movement_pending + 1
    | .down => s.vertical_movement_pending - 1
    | _ => s.vertical_movement_pending
  let target_position :=
    calculate_target_position c.grid_size s.current_position temp_horizontal temp_vertical
  decide (is_valid_position c.grid_size target_position)

/-- Mirrors `ScannerManager._is_pending_movements_within_limit` (lines 156-159). -/
def _is_pending_movements_within_limit (s : ScannerState) : Bool :=
  decide (|s.horizontal_movement_pending| + |s.vertical_movement_pending| <
    max_pending_movements)

/-- The state effect of `ScannerManager.queue_movement` (lines 318-369):
reject (returning the state unchanged) if either guard fails, otherwise
adjust the pending counter for the direction by one. -/
def queue_movement (c : ScannerConfig) (s : ScannerState) (d : Direction) : ScannerState :=
  if ¬ _is_valid_movement c s d then s
  else if ¬ _is_pending_movements_within_limit s then s
  else
    match d with
    | .left => { s with horizontal_movement_pending := s.horizontal_movement_pending - 1 }
    | .right => { s with horizontal_movement_pending := s.horizontal_movement_pending + 1 }
    | .up => { s with vertical_movement_pending := s.vertical_movement_pending + 1 }
    | .down => { s with vertical_movement_pending := s.vertical_movement_pending - 1 }

/-- Computes `abs(pendingHorizontal) + abs(pendingVertical)`, the quantity the
queue-depth guard inspects. -/
def total_pending (s : ScannerState) : Int :=
  |s.horizontal_movement_pending| + |s.vertical_movement_pending|

/-- Folding a sequence of direction commands through `queue_movement`. -/
def queue_many (c : ScannerConfig) (s : ScannerState) (ds : List Direction) : ScannerState :=
  ds.foldl (queue_movement c) s

/-- One row of the `scanner_state` table (models/scanner.py), as written by
`_save_state_to_db_internal` and read back by `_load_state_from_db`. -/
structure StateRow where
  current_position_x : Int
  current_position_y : Int
  horizontal_movement_pending : Int
  vertical_movement_pending : Int
  operation_status : String
  operation_start_time : Option ℝ
  current_movement_duration : Option ℝ

/-- One row of the `scanner_operations` audit table (operation type plus the
position recorded with it). -/
structure OperationRow where
  operation_type : String
  position_x : Int
  position_y : Int

/-- The durable store for one user: the (at most one) `scanner_state` row,
the distinct projection of `captured_positions`, and the append-only
`scanner_operations` log. -/
structure ScannerDB where
  state_row : Option StateRow
  captured_rows : Finset (Int × Int)
  operations : List OperationRow

/-- The row `_save_state_to_db_internal` (lines 234-257) writes.  Note line
241 calls `clamp_to_bounds` as a bare statement and discards the result, so
the row holds the unclamped in-memory position. -/
def save_row (c : ScannerConfig) (s : ScannerState) : StateRow :=
  let _ := s.current_position.clamp_to_bounds c.grid_size
  ⟨s.current_position.x, s.current_position.y,
    s.horizontal_movement_pending, s.vertical_movement_pending,
    s.operation_status.value, s.operation_start_time, s.current_movement_duration⟩

/-- Mirrors `ScannerManager._save_state_to_db_internal`: delete any existing state
row for the user and insert the current one. -/
def _save_state_to_db_internal (c : ScannerConfig) (s : ScannerState)
    (db : ScannerDB) : ScannerDB :=
  { db with state_row := some (save_row c s) }

/-- Mirrors `ScannerManager._load_state_from_db` (lines 161-232) applied to a manager
in state `s`.  With a state row present: an out-of-bounds stored position is
clamped and the rest reset; otherwise the row's fields are copied in, the
pending deltas are cleared if the resolved target fails `is_valid_position`,
and a stale `MOVING`/`FOCUSING` status is normalized to `READY`; finally the
distinct captured rows are merged into the live set.  An unparsable status
string raises after position and pendings were already assigned, and the
`except` handler then resets only the position to the default (lines
228-232), skipping normalization and the captured-positions load.  With no
row, the current state is saved as the initial row. -/
def _load_state_from_db (c : ScannerConfig) (db : ScannerDB) (s : ScannerState) :
    ScannerState × ScannerDB :=
  match db.state_row with
  | none =>
      let db' := _save_state_to_db_internal c s db
      ({ s with captured_positions := s.captured_positions ∪ db.captured_rows }, db')
  | some row =>
      let loaded_position : Position := ⟨row.current_position_x, row.current_position_y⟩
      if ¬ is_valid_position c.grid_size loaded_position then
        let s1 : ScannerState :=
          { s with current_position := loaded_position.clamp_to_bounds c.grid_size,
                   horizontal_movement_pending := 0, vertical_movement_pending := 0,
                   operation_status := .ready, operation_start_time := none,
                   current_movement_duration := none }
        let s2 := if s1.operation_status = .moving ∨ s1.operation_status = .focusing then
            { s1 with operation_status := .ready, operation_start_time := none,
                      current_movement_duration := none }
          else s1
        ({ s2 with captured_positions := s2.captured_positions ∪ db.captured_rows }, db)
      else
        match OperationStatus.fromValue row.operation_status with
        | none =>
            ({ s with current_position := get_default_position c,
                      horizontal_movement_pending := row.horizontal_movement_pending,
                      vertical_movement_pending := row.vertical_movement_pending }, db)
        | some st =>
            let s1 : ScannerState :=
              { s with current_position := loaded_position,
                       horizontal_movement_pending := row.horizontal_movement_pending,
                       vertical_movement_pending := row.vertical_movement_pending,
                       operation_status := st,
                       operation_start_time := row.operation_start_time,
                       current_movement_duration := row.current_movement_duration }
            let target_position := calculate_target_position c.grid_size
              s1.current_position s1.horizontal_movement_pending s1.vertical_movement_pending
            let s2 := if ¬ is_valid_position c.grid_size target_position then
                { s1 with horizontal_movement_pending := 0, vertical_movement_pending := 0 }
              else s1
            let s3 := if s2.operation_status = .moving ∨ s2.operation_status = .focusing then
                { s2 with operation_status := .ready, operation_start_time := none,
                          current_movement_duration := none }
              else s2
            ({ s3 with captured_positions := s3.captured_positions ∪ db.captured_rows }, db)

/-- The state `reset_scanner` (lines 751-787) installs: default position,
no pendings, `READY`, empty captured set, run flag cleared. -/
def reset_state (c : ScannerConfig) : ScannerState :=
  ⟨get_default_position c, 0, 0, .ready, none, none, ∅, false⟩

/-- Mirrors `ScannerManager.reset_scanner`: install the default state, delete the
user's captured positions and operation history, and persist. -/
def reset_scanner (c : ScannerConfig) (_s : ScannerState) (db : ScannerDB) :
    ScannerState × ScannerDB :=
  let s' := reset_state c
  let db' : ScannerDB := { state_row := db.state_row, captured_rows := ∅, operations := [] }
  (s', _save_state_to_db_internal c s' db')

/-- The state effect of a successful `focus_and_capture` run (lines 593-633):
status `FOCUSING` with a fresh start time, then the (unclamped) current
position's tuple is added to the captured set and status becomes
`COMPLETED`, and after the settle delay status returns to `READY` with the
start time cleared.  Line 614 calls `clamp_to_bounds` as a bare statement,
discarding the result. -/
def focus_and_capture_state (c : ScannerConfig) (now : ℝ) (s : ScannerState) : ScannerState :=
  let s1 := { s with operation_status := OperationStatus.focusing,
                     operation_start_time := some now }
  let _ := s1.current_position.clamp_to_bounds c.grid_size
  let position_tuple := s1.current_position.to_tuple
  let s2 := { s1 with captured_positions := insert position_tuple s1.captured_positions,
                      operation_status := OperationStatus.completed }
  { s2 with operation_status := OperationStatus.ready, operation_start_time := none }

/-- Mirrors `int(elapsed / per_slide_time) if per_slide_time > 0 else 0`
(scanner_manager.py line 470).  In the loop both quantities are positive, so
Python's truncation toward zero agrees with the floor used here. -/
noncomputable def blocks_movable_of (elapsed per_slide_time : ℝ) : Int :=
  if per_slide_time > 0 then ⌊elapsed / per_slide_time⌋ else 0

/-- The interruption advance (lines 478-508): with `blocks_movable` whole
cells justified, move horizontally first, then vertically, each direction
bounded by the committed remainder, clamping the position after each axis;
returns the new position together with the unconsumed committed deltas. -/
def interrupt_advance (grid_size : Int) (pos : Position)
    (last_pending_h last_pending_v blocks_movable : Int) :
    Position × Int × Int :=
  if blocks_movable ≥ 1 then
    let step1 : Position × Int × Int :=
      if last_pending_h ≠ 0 ∧ blocks_movable ≥ 1 then
        let h_direction : Int := if last_pending_h > 0 then 1 else -1
        let h_moves := min |last_pending_h| blocks_movable
        ((Position.mk (pos.x + h_moves * h_direction) pos.y).clamp_to_bounds grid_size,
          last_pending_h - h_moves * h_direction,
          blocks_movable - h_moves)
      else (pos, last_pending_h, blocks_movable)
    let pos1 := step1.1
    let last_pending_h1 := step1.2.1
    let blocks1 := step1.2.2
    let step2 : Position × Int :=
      if last_pending_v ≠ 0 ∧ blocks1 ≥ 1 then
        let v_direction : Int := if last_pending_v > 0 then 1 else -1
        let v_moves := min |last_pending_v| blocks1
        ((Position.mk pos1.x (pos1.y + v_moves * v_direction)).clamp_to_bounds grid_size,
          last_pending_v - v_moves * v_direction)
      else (pos1, last_pending_v)
    (step2.1, last_pending_h1, step2.2)
  else (pos, last_pending_h, last_pending_v)

/-- How one movement iteration of `process_operations` ended: aborted by the
duration sanity guard, truncated by the interruption rule, or run to
completion. -/
inductive IterOutcome where
  | abortedDuration
  | interrupted
  | completed
  deriving DecidableEq, Repr

/-- The runtime environment of one movement iteration: the pending deltas
newly queued by clients while the step was executing (observed at a poll),
the elapsed time at that poll, and the wall-clock time when the step began. -/
structure PollEnv where
  new_h : Int
  new_v : Int
  elapsed : ℝ
  now : ℝ

/-- One iteration of the `process_operations` movement loop (lines 417-521).
Resolve the target and its duration; if the duration fails the sanity guard
(`<= 0 or > 60`, line 429) clear the pending deltas and abort.  Otherwise
set status `MOVING`, snapshot the pending deltas as the committed step and
zero the live counters; if new movements were queued during the step
(`env.new_h`/`env.new_v`), truncate via `interrupt_advance` at
`env.elapsed` and push the unconsumed committed deltas back onto the live
counters; otherwise snap to the resolved target.  `env.new_h`/`env.new_v`
are the live pending counters at the poll, so they are added back in both
branches exactly as lines 518-520 do. -/
noncomputable def processIteration (c : ScannerConfig) (multiplier : ℝ)
    (env : PollEnv) (s : ScannerState) : ScannerState × IterOutcome :=
  let target_position := calculate_target_position c.grid_size s.current_position
    s.horizontal_movement_pending s.vertical_movement_pending
  let movement_duration := calculate_movement_time multiplier s.current_position target_position
  if movement_duration ≤ 0 ∨ movement_duration > 60 then
    ({ s with horizontal_movement_pending := 0, vertical_movement_pending := 0 },
      IterOutcome.abortedDuration)
  else
    let s1 := { s with operation_status := OperationStatus.moving,
                       operation_start_time := some env.now,
                       current_movement_duration := some movement_duration }
    let last_pending_h := s1.horizontal_movement_pending
    let last_pending_v := s1.vertical_movement_pending
    let s2 := { s1 with horizontal_movement_pending := 0, vertical_movement_pending := 0 }
    let last_pending_distance : Int := |last_pending_h| + |last_pending_v|
    let per_slide_time : ℝ :=
      if last_pending_distance > 0 then movement_duration / (last_pending_distance : ℝ)
      else movement_duration
    if env.new_h ≠ 0 ∨ env.new_v ≠ 0 then
      let blocks := blocks_movable_of env.elapsed per_slide_time
      let adv := interrupt_advance c.grid_size s2.current_position
        last_pending_h last_pending_v blocks
      ({ s2 with current_position := adv.1,
                 horizontal_movement_pending := env.new_h + adv.2.1,
                 vertical_movement_pending := env.new_v + adv.2.2,
                 current_movement_duration := none },
        IterOutcome.interrupted)
    else
      ({ s2 with current_position := target_position.clamp_to_bounds c.grid_size,
                 current_movement_duration := none },
        IterOutcome.completed)

/-- The exception handler and `finally` block closing every
`process_operations` run (lines 543-557): on an exception the pending deltas
are cleared; unconditionally the run flag and in-flight duration are
cleared, and any status other than `FOCUSING`/`READY` is forced to `READY`. -/
def process_exit (s : ScannerState) (exception_raised : Bool) : ScannerState :=
  let s1 := if exception_raised then
      { s with horizontal_movement_pending := 0, vertical_movement_pending := 0 }
    else s
  let s2 := { s1 with is_processing := false, current_movement_duration := none }
  if s2.operation_status ≠ OperationStatus.focusing ∧
      s2.operation_status ≠ OperationStatus.ready then
    { s2 with operation_status := OperationStatus.ready }
  else s2

/-- The operations on scanner state whose effect on `current_position` the
spec's bounds invariant quantifies over. -/
inductive ScannerOp where
  | queue (d : Direction)
  | step (env : PollEnv)
  | focusCapture (now : ℝ)
  | reset
  | load (db : ScannerDB)
  | runExit (exception_raised : Bool)

/-- Applying one operation to the in-memory state. -/
noncomputable def applyOp (c : ScannerConfig) (multiplier : ℝ)
    (s : ScannerState) : ScannerOp → ScannerState
  | .queue d => queue_movement c s d
  | .step env => (processIteration c multiplier env s).1
  | .focusCapture now => focus_and_capture_state c now s
  | .reset => reset_state c
  | .load db => (_load_state_from_db c db s).1
  | .runExit exc => process_exit s exc

/-- Running a sequence of operations from a starting state. -/
noncomputable def runOps (c : ScannerConfig) (multiplier : ℝ)
    (s : ScannerState) (ops : List ScannerOp) : ScannerState :=
  ops.foldl (applyOp c multiplier) s

/-- The spec's description of `clampToBounds` on one coordinate: confine it
to `[0, gridSize - 1]`. -/
def spec_clamp (grid_size z : Int) : Int := max 0 (min (grid_size - 1) z)

/-! ### Shared lemmas -/

lemma clamp_is_within_bounds (g : Int) (hg : 1 ≤ g) (p : Position) :
    (p.clamp_to_bounds g).is_within_bounds g := by
  unfold Position.clamp_to_bounds Position.is_within_bounds
  refine ⟨le_max_left _ _, ?_, le_max_left _ _, ?_⟩ <;>
    exact max_lt (by omega) (lt_of_le_of_lt (min_le_left _ _) (by omega))

lemma target_is_valid (g : Int) (hg : 1 ≤ g) (p : Position) (h v : Int) :
    is_valid_position g (calculate_target_position g p h v) :=
  clamp_is_within_bounds g hg _

lemma clamp_of_within_bounds (g : Int) (p : Position) (hp : p.is_within_bounds g) :
    p.clamp_to_bounds g = p := by
  obtain ⟨h1, h2, h3, h4⟩ := hp
  unfold Position.clamp_to_bounds
  have hx : max 0 (min (g - 1) p.x) = p.x := by omega
  have hy : max 0 (min (g - 1) p.y) = p.y := by omega
  rw [hx, hy]

/-- The bounds guard is vacuous: `calculate_target_position` clamps before
`is_valid_position` is checked, so for any positive grid size the check
always passes. -/
lemma _is_valid_movement_always_true (c : ScannerConfig) (hg : 1 ≤ c.grid_size)
    (s : ScannerState) (d : Direction) : _is_valid_movement c s d = true := by
  unfold _is_valid_movement
  exact decide_eq_true (target_is_valid c.grid_size hg s.current_position _ _)

lemma queue_movement_position (c : ScannerConfig) (s : ScannerState) (d : Direction) :
    (queue_movement c s d).current_position = s.current_position := by
  unfold queue_movement
  by_cases hv : _is_valid_movement c s d = true
  · by_cases hl : _is_pending_movements_within_limit s = true
    · rw [if_neg (not_not_intro hv), if_neg (not_not_intro hl)]
      cases d <;> rfl
    · rw [if_neg (not_not_intro hv), if_pos hl]
  · rw [if_pos hv]

lemma queue_movement_rejected_of_limit (c : ScannerConfig) (s : ScannerState)
    (d : Direction) (h : max_pending_movements ≤ total_pending s) :
    queue_movement c s d = s := by
  have hlim : ¬ _is_pending_movements_within_limit s = true := by
    simp only [_is_pending_movements_within_limit, decide_eq_true_eq, not_lt]
    exact h
  unfold queue_movement
  by_cases hv : _is_valid_movement c s d = true
  · rw [if_neg (not_not_intro hv), if_pos hlim]
  · rw [if_pos hv]

lemma queue_movement_total_le (c : ScannerConfig) (s : ScannerState) (d : Direction)
    (h : total_pending s ≤ max_pending_movements) :
    total_pending (queue_movement c s d) ≤ max_pending_movements := by
  by_cases hv : _is_valid_movement c s d = true
  · by_cases hl : _is_pending_movements_within_limit s = true
    · have hlt : |s.horizontal_movement_pending| + |s.vertical_movement_pending| <
          max_pending_movements := by
        simpa [_is_pending_movements_within_limit] using hl
      unfold queue_movement
      rw [if_neg (not_not_intro hv), if_neg (not_not_intro hl)]
      have h1 : |s.horizontal_movement_pending + 1| ≤ |s.horizontal_movement_pending| + 1 := by
        calc |s.horizontal_movement_pending + 1| ≤
            |s.horizontal_movement_pending| + |(1 : Int)| := abs_add _ _
          _ = |s.horizontal_movement_pending| + 1 := by norm_num
      have h2 : |s.horizontal_movement_pending - 1| ≤ |s.horizontal_movement_pending| + 1 := by
        calc |s.horizontal_movement_pending - 1| ≤
            |s.horizontal_movement_pending| + |(1 : Int)| := abs_sub _ _
          _ = |s.horizontal_movement_pending| + 1 := by norm_num
      have h3 : |s.vertical_movement_pending + 1| ≤ |s.vertical_movement_pending| + 1 := by
        calc |s.vertical_movement_pending + 1| ≤
            |s.vertical_movement_pending| + |(1 : Int)| := abs_add _ _
          _ = |s.vertical_movement_pending| + 1 := by norm_num
      have h4 : |s.vertical_movement_pending - 1| ≤ |s.vertical_movement_pending| + 1 := by
        calc |s.vertical_movement_pending - 1| ≤
            |s.vertical_movement_pending| + |(1 : Int)| := abs_sub _ _
          _ = |s.vertical_movement_pending| + 1 := by norm_num
      cases d <;> unfold total_pending <;> dsimp only [] <;> linarith
    · have heq : queue_movement c s d = s := by
        unfold queue_movement
        rw [if_neg (not_not_intro hv), if_pos hl]
      rw [heq]; exact h
  · have heq : queue_movement c s d = s := by
      unfold queue_movement
      rw [if_pos hv]
    rw [heq]; exact h

lemma queue_many_total_le (c : ScannerConfig) (ds : List Direction) :
    ∀ s : ScannerState, total_pending s ≤ max_pending_movements →
      total_pending (queue_many c s ds) ≤ max_pending_movements := by
  induction ds with
  | nil => intro s h; simpa [queue_many] using h
  | cons d ds ih =>
      intro s h
      simpa [queue_many, List.foldl] using ih _ (queue_movement_total_le c s d h)

lemma distance_to_self (p : Position) : p.distance_to p = 0 := by
  unfold Position.distance_to
  norm_num

lemma movement_time_self (m : ℝ) (p : Position) : calculate_movement_time m p p = 0 := by
  unfold calculate_movement_time
  rw [if_pos (distance_to_self p)]

/-- The movement duration one iteration of `process_operations` computes
(scanner_manager.py lines 417-426): the time to the target resolved from the
current pending deltas. -/
noncomputable def iter_duration (c : ScannerConfig) (multiplier : ℝ) (s : ScannerState) : ℝ :=
  calculate_movement_time multiplier s.current_position
    (calculate_target_position c.grid_size s.current_position
      s.horizontal_movement_pending s.vertical_movement_pending)

/-- The per-cell time of one iteration (line 464). -/
noncomputable def iter_per_slide (c : ScannerConfig) (multiplier : ℝ) (s : ScannerState) : ℝ :=
  if |s.horizontal_movement_pending| + |s.vertical_movement_pending| > 0 then
    iter_duration c multiplier s /
      ((|s.horizontal_movement_pending| + |s.vertical_movement_pending| : Int) : ℝ)
  else iter_duration c multiplier s

lemma processIteration_aborted (c : ScannerConfig) (m : ℝ) (env : PollEnv)
    (s : ScannerState)
    (hguard : iter_duration c m s ≤ 0 ∨ iter_duration c m s > 60) :
    processIteration c m env s =
      ({ s with horizontal_movement_pending := 0, vertical_movement_pending := 0 },
        IterOutcome.abortedDuration) := by
  simp only [iter_duration] at hguard
  simp only [processIteration]
  rw [if_pos hguard]

lemma processIteration_interrupted (c : ScannerConfig) (m : ℝ) (env : PollEnv)
    (s : ScannerState)
    (hguard : ¬ (iter_duration c m s ≤ 0 ∨ iter_duration c m s > 60))
    (hnew : env.new_h ≠ 0 ∨ env.new_v ≠ 0) :
    processIteration c m env s =
      (⟨(interrupt_advance c.grid_size s.current_position s.horizontal_movement_pending
            s.vertical_movement_pending
            (blocks_movable_of env.elapsed (iter_per_slide c m s))).1,
        env.new_h + (interrupt_advance c.grid_size s.current_position
            s.horizontal_movement_pending s.vertical_movement_pending
            (blocks_movable_of env.elapsed (iter_per_slide c m s))).2.1,
        env.new_v + (interrupt_advance c.grid_size s.current_position
            s.horizontal_movement_pending s.vertical_movement_pending
            (blocks_movable_of env.elapsed (iter_per_slide c m s))).2.2,
        OperationStatus.moving, some env.now, none,
        s.captured_positions, s.is_processing⟩,
        IterOutcome.interrupted) := by
  simp only [iter_duration] at hguard
  simp only [processIteration]
  rw [if_neg hguard, if_pos hnew]
  simp only [iter_per_slide, iter_duration]

/-- Evaluation of the interruption advance for a committed step of `(+3, 0)`
whose full target stays inside the grid: `k` justified cells move the
position `k` cells right and leave `3 - k` unconsumed. -/
lemma interrupt_advance_h3 (g : Int) (pos : Position) (k : Int) (hg : 1 ≤ g)
    (hp : pos.is_within_bounds g) (hroom : pos.x + 3 ≤ g - 1)
    (hk0 : 0 ≤ k) (hk3 : k ≤ 3) :
    interrupt_advance g pos 3 0 k = (⟨pos.x + k, pos.y⟩, 3 - k, 0) := by
  obtain ⟨hx0, hxg, hy0, hyg⟩ := hp
  by_cases h0 : k ≥ 1
  · unfold interrupt_advance
    rw [if_pos h0]
    have hc1 : ((3 : Int) ≠ 0 ∧ k ≥ 1) := ⟨by norm_num, h0⟩
    have hd1 : ((3 : Int) > 0) := by norm_num
    rw [if_pos hc1, if_pos hd1]
    have hmin : min |(3 : Int)| k = k := by
      rw [show |(3 : Int)| = 3 from by norm_num]
      exact min_eq_right hk3
    rw [hmin]
    dsimp only
    have hc2 : ¬ ((0 : Int) ≠ 0 ∧ k - k ≥ 1) := by simp
    rw [if_neg hc2]
    have hclamp : (Position.mk (pos.x + k * 1) pos.y).clamp_to_bounds g =
        ⟨pos.x + k, pos.y⟩ := by
      unfold Position.clamp_to_bounds
      have e1 : max 0 (min (g - 1) (pos.x + k * 1)) = pos.x + k := by omega
      have e2 : max 0 (min (g - 1) pos.y) = pos.y := by omega
      rw [e1, e2]
    rw [hclamp]
    simp
  · have hk : k = 0 := by omega
    subst hk
    unfold interrupt_advance
    rw [if_neg h0]
    simp

/-! ### Claim theorems -/

/-- Claim C2 (amended): for a move executing a committed delta of `(+3, 0)`
whose full advance stays inside the grid (`x + 3 ≤ gridSize - 1`), if new
commands were queued during the step and the interruption fires with
`k = floor(elapsed / (duration / 3))` whole cells justified, `0 ≤ k ≤ 3`,
then the position advances by exactly `k` cells horizontally and exactly
`3 - k` steps are pushed back onto `pendingHorizontal` (on top of the newly
queued deltas), so no committed motion is lost or duplicated.  Without the
in-grid-advance premise the per-axis clamp can discard committed cells; see
the counterexample. -/
theorem interruption_conserves_committed_delta
    (c : ScannerConfig) (m : ℝ) (env : PollEnv) (s : ScannerState) (k : Int)
    (hg : 1 ≤ c.grid_size)
    (hb : s.current_position.is_within_bounds c.grid_size)
    (hch : s.horizontal_movement_pending = 3)
    (hcv : s.vertical_movement_pending = 0)
    (hroom : s.current_position.x + 3 ≤ c.grid_size - 1)
    (hnew : env.new_h ≠ 0 ∨ env.new_v ≠ 0)
    (hD0 : 0 < iter_duration c m s) (hD60 : iter_duration c m s ≤ 60)
    (hk : k = blocks_movable_of env.elapsed (iter_duration c m s / 3))
    (hk0 : 0 ≤ k) (hk3 : k ≤ 3) :
    (processIteration c m env s).1.current_position =
      ⟨s.current_position.x + k, s.current_position.y⟩ ∧
    (processIteration c m env s).1.horizontal_movement_pending = env.new_h + (3 - k) ∧
    (processIteration c m env s).1.vertical_movement_pending = env.new_v ∧
    (processIteration c m env s).2 = IterOutcome.interrupted := by
  have hguard : ¬ (iter_duration c m s ≤ 0 ∨ iter_duration c m s > 60) := by
    push_neg
    exact ⟨hD0, hD60⟩
  have hps : iter_per_slide c m s = iter_duration c m s / 3 := by
    unfold iter_per_slide
    rw [hch, hcv]
    norm_num
  have hmain := processIteration_interrupted c m env s hguard hnew
  rw [hmain]
  dsimp only
  rw [hch, hcv, hps, ← hk,
    interrupt_advance_h3 c.grid_size s.current_position k hg hb hroom hk0 hk3]
  exact ⟨rfl, rfl, by simp, rfl⟩

/-- Claim C9: for every position and every pair of signed pending deltas,
`calculate_target_position` clamps each coordinate independently into
`[0, gridSize - 1]`, and the result always satisfies `is_valid_position`. -/
theorem target_resolution_clamps_each_axis (g : Int) (p : Position) (h v : Int)
    (hg : 1 ≤ g) :
    (calculate_target_position g p h v).x = spec_clamp g (p.x + h) ∧
    (calculate_target_position g p h v).y = spec_clamp g (p.y + v) ∧
    is_valid_position g (calculate_target_position g p h v) :=
  ⟨rfl, rfl, target_is_valid g hg p h v⟩

/-- Witness for C9 at grid size 11, position (3,4), deltas (+9, -9). -/
theorem target_resolution_witness :
    (1 : Int) ≤ 11 ∧
    (calculate_target_position 11 ⟨3, 4⟩ 9 (-9)).x = spec_clamp 11 (3 + 9) ∧
    (calculate_target_position 11 ⟨3, 4⟩ 9 (-9)).y = spec_clamp 11 (4 + -9) ∧
    is_valid_position 11 (calculate_target_position 11 ⟨3, 4⟩ 9 (-9)) :=
  ⟨by decide, target_resolution_clamps_each_axis 11 ⟨3, 4⟩ 9 (-9) (by decide)⟩

/-- Claim C1 (code-bug evidence): at the right edge (10,5) with zero pending
deltas on the default 11-wide grid, a RIGHT command passes the bounds guard
(`_is_valid_movement` clamps the target to (10,5), which is valid) and is
queued, leaving `pendingHorizontal = 1` — the rejection the spec requires
never happens. -/
theorem edge_right_command_accepted :
    _is_valid_movement defaultConfig
      ⟨⟨10, 5⟩, 0, 0, .ready, none, none, ∅, false⟩ .right = true ∧
    queue_movement defaultConfig
      ⟨⟨10, 5⟩, 0, 0, .ready, none, none, ∅, false⟩ .right =
      ⟨⟨10, 5⟩, 1, 0, .ready, none, none, ∅, false⟩ :=
  ⟨by decide, rfl⟩

/-- Claim C3 (amended): a command is rejected, leaving the state unchanged,
whenever the current total `|pendingH| + |pendingV|` has already reached the
ceiling of 10000; an accepted command changes the total by at most one, so
along every command sequence starting at or below the ceiling the total
never exceeds it. -/
theorem queue_depth_guard_bounds_total_pending (c : ScannerConfig) (s : ScannerState)
    (d : Direction) (ds : List Direction)
    (hstart : total_pending s ≤ max_pending_movements) :
    (max_pending_movements ≤ total_pending s → queue_movement c s d = s) ∧
    total_pending (queue_many c s ds) ≤ max_pending_movements :=
  ⟨fun h => queue_movement_rejected_of_limit c s d h,
    queue_many_total_le c ds s hstart⟩

/-- Witness for C3 from the fresh default state with two queued commands. -/
theorem queue_depth_guard_witness :
    total_pending (freshState defaultConfig) ≤ max_pending_movements ∧
    total_pending (queue_many defaultConfig (freshState defaultConfig)
      [Direction.up, Direction.right]) ≤ max_pending_movements :=
  ⟨by decide,
    (queue_depth_guard_bounds_total_pending defaultConfig (freshState defaultConfig)
      Direction.up [Direction.up, Direction.right] (by decide)).2⟩

/-- Claim C3 counterexample: with pending (9999, 0) the total is one below
the ceiling, and a RIGHT command — whose application makes the total reach
the ceiling of 10000 — is accepted rather than rejected. -/
theorem ceiling_reaching_command_accepted :
    total_pending ⟨⟨5, 5⟩, 9999, 0, .ready, none, none, ∅, false⟩ + 1 =
      max_pending_movements ∧
    queue_movement defaultConfig
      ⟨⟨5, 5⟩, 9999, 0, .ready, none, none, ∅, false⟩ .right =
      ⟨⟨5, 5⟩, 10000, 0, .ready, none, none, ∅, false⟩ ∧
    total_pending (queue_movement defaultConfig
      ⟨⟨5, 5⟩, 9999, 0, .ready, none, none, ∅, false⟩ .right) =
      max_pending_movements :=
  ⟨by decide, rfl, by decide⟩

lemma iter_duration_sqrt3_at5 :
    iter_duration defaultConfig (Real.sqrt 3)
      ⟨⟨5, 5⟩, 3, 0, .ready, none, none, ∅, false⟩ = 3 := by
  unfold iter_duration
  show calculate_movement_time (Real.sqrt 3) ⟨5, 5⟩
    (calculate_target_position defaultConfig.grid_size ⟨5, 5⟩ 3 0) = 3
  rw [show calculate_target_position defaultConfig.grid_size ⟨5, 5⟩ 3 0 =
    (⟨8, 5⟩ : Position) from by decide]
  have hd : Position.distance_to ⟨5, 5⟩ ⟨8, 5⟩ = 3 := by
    show Real.sqrt ((((5 : Int) - 8) ^ 2 + ((5 : Int) - 5) ^ 2 : Int) : ℝ) = 3
    rw [show ((((5 : Int) - 8) ^ 2 + ((5 : Int) - 5) ^ 2 : Int) : ℝ) = (9 : ℝ) from by
      norm_num]
    rw [show (9 : ℝ) = 3 ^ 2 from by norm_num]
    exact Real.sqrt_sq (by norm_num)
  unfold calculate_movement_time
  rw [hd, if_neg (by norm_num : ¬ ((3 : ℝ) = 0))]
  exact Real.mul_self_sqrt (by norm_num)

lemma iter_duration_three_at9 :
    iter_duration defaultConfig 3
      ⟨⟨9, 5⟩, 3, 0, .ready, none, none, ∅, false⟩ = 3 := by
  unfold iter_duration
  show calculate_movement_time 3 ⟨9, 5⟩
    (calculate_target_position defaultConfig.grid_size ⟨9, 5⟩ 3 0) = 3
  rw [show calculate_target_position defaultConfig.grid_size ⟨9, 5⟩ 3 0 =
    (⟨10, 5⟩ : Position) from by decide]
  have hd : Position.distance_to ⟨9, 5⟩ ⟨10, 5⟩ = 1 := by
    show Real.sqrt ((((9 : Int) - 10) ^ 2 + ((5 : Int) - 5) ^ 2 : Int) : ℝ) = 1
    rw [show ((((9 : Int) - 10) ^ 2 + ((5 : Int) - 5) ^ 2 : Int) : ℝ) = (1 : ℝ) from by
      norm_num]
    exact Real.sqrt_one
  unfold calculate_movement_time
  rw [hd, if_neg (by norm_num : ¬ ((1 : ℝ) = 0)), Real.sqrt_one]
  norm_num

lemma blocks_movable_two_one : blocks_movable_of 2 1 = 2 := by
  unfold blocks_movable_of
  rw [if_pos one_pos, div_one,
    show ((2 : ℝ)) = ((2 : Int) : ℝ) from by norm_num, Int.floor_intCast]

/-- Witness for C2 at grid 11, start (5,5), committed (+3,0), multiplier √3
(duration 3 s), interruption at elapsed 2 s justifying k = 2 cells: the
position becomes (7,5) and 1 = 3-2 committed step is pushed back on top of
the newly queued +1. -/
theorem interruption_conservation_witness :
    (2 : Int) = blocks_movable_of 2 (iter_duration defaultConfig (Real.sqrt 3)
        ⟨⟨5, 5⟩, 3, 0, .ready, none, none, ∅, false⟩ / 3) ∧
    (processIteration defaultConfig (Real.sqrt 3) ⟨1, 0, 2, 0⟩
        ⟨⟨5, 5⟩, 3, 0, .ready, none, none, ∅, false⟩).1.current_position = ⟨7, 5⟩ ∧
    (processIteration defaultConfig (Real.sqrt 3) ⟨1, 0, 2, 0⟩
        ⟨⟨5, 5⟩, 3, 0, .ready, none, none, ∅, false⟩).1.horizontal_movement_pending = 2 ∧
    (processIteration defaultConfig (Real.sqrt 3) ⟨1, 0, 2, 0⟩
        ⟨⟨5, 5⟩, 3, 0, .ready, none, none, ∅, false⟩).1.vertical_movement_pending = 0 ∧
    (processIteration defaultConfig (Real.sqrt 3) ⟨1, 0, 2, 0⟩
        ⟨⟨5, 5⟩, 3, 0, .ready, none, none, ∅, false⟩).2 = IterOutcome.interrupted := by
  have hk2 : (2 : Int) = blocks_movable_of 2 (iter_duration defaultConfig (Real.sqrt 3)
      ⟨⟨5, 5⟩, 3, 0, .ready, none, none, ∅, false⟩ / 3) := by
    rw [iter_duration_sqrt3_at5, show (3 : ℝ) / 3 = (1 : ℝ) from by norm_num,
      blocks_movable_two_one]
  obtain ⟨h1, h2, h3, h4⟩ :=
    interruption_conserves_committed_delta defaultConfig (Real.sqrt 3) ⟨1, 0, 2, 0⟩
      ⟨⟨5, 5⟩, 3, 0, .ready, none, none, ∅, false⟩ 2
      (by decide) (by decide) rfl rfl (by decide) (Or.inl (by decide))
      (by rw [iter_duration_sqrt3_at5]; norm_num)
      (by rw [iter_duration_sqrt3_at5]; norm_num)
      hk2 (by decide) (by decide)
  exact ⟨hk2, by rw [h1]; decide, by rw [h2]; decide, by rw [h3], h4⟩

/-- Claim C2 counterexample: at start (9,5) — in bounds on the 11-wide grid —
with committed delta (+3,0) (duration 3 s at multiplier 3, since the resolved
target clamps to (10,5)), an interruption at elapsed 2 s justifies k = 2
cells, but the per-axis clamp leaves the position at (10,5), not the (11,5)
an exact k-cell advance would give: one committed cell is silently lost. -/
theorem interruption_exact_advance_fails_at_edge :
    (⟨9, 5⟩ : Position).is_within_bounds defaultConfig.grid_size ∧
    (2 : Int) = blocks_movable_of 2 (iter_duration defaultConfig 3
        ⟨⟨9, 5⟩, 3, 0, .ready, none, none, ∅, false⟩ / 3) ∧
    (processIteration defaultConfig 3 ⟨1, 0, 2, 0⟩
        ⟨⟨9, 5⟩, 3, 0, .ready, none, none, ∅, false⟩).1.current_position = ⟨10, 5⟩ ∧
    (processIteration defaultConfig 3 ⟨1, 0, 2, 0⟩
        ⟨⟨9, 5⟩, 3, 0, .ready, none, none, ∅, false⟩).1.current_position ≠
      ⟨9 + 2, 5⟩ := by
  have hguard : ¬ (iter_duration defaultConfig 3
      ⟨⟨9, 5⟩, 3, 0, .ready, none, none, ∅, false⟩ ≤ 0 ∨
      iter_duration defaultConfig 3
      ⟨⟨9, 5⟩, 3, 0, .ready, none, none, ∅, false⟩ > 60) := by
    rw [iter_duration_three_at9]
    norm_num
  have hps : iter_per_slide defaultConfig 3
      ⟨⟨9, 5⟩, 3, 0, .ready, none, none, ∅, false⟩ = 1 := by
    unfold iter_per_slide
    show (if |(3 : Int)| + |(0 : Int)| > 0 then
        iter_duration defaultConfig 3 ⟨⟨9, 5⟩, 3, 0, .ready, none, none, ∅, false⟩ /
          ((|(3 : Int)| + |(0 : Int)| : Int) : ℝ)
      else iter_duration defaultConfig 3 ⟨⟨9, 5⟩, 3, 0, .ready, none, none, ∅, false⟩) = 1
    rw [if_pos (by norm_num), iter_duration_three_at9]
    norm_num
  have hmain := processIteration_interrupted defaultConfig 3 ⟨1, 0, 2, 0⟩
    ⟨⟨9, 5⟩, 3, 0, .ready, none, none, ∅, false⟩ hguard (Or.inl (by decide))
  refine ⟨by decide, ?_, ?_, ?_⟩
  · rw [iter_duration_three_at9, show (3 : ℝ) / 3 = (1 : ℝ) from by norm_num,
      blocks_movable_two_one]
  · rw [hmain]
    dsimp only
    rw [hps, blocks_movable_two_one]
    decide
  · rw [hmain]
    dsimp only
    rw [hps, blocks_movable_two_one]
    decide

/-- Claim C7: when the computed movement duration of a processing-loop
iteration fails the sanity guard (non-positive, or above the 60 s single-move
maximum), the step aborts: both pending deltas become zero, the position does
not move, and the iteration ends with the `abortedDuration` outcome.  In
particular the duration is zero exactly in the degenerate case where the
pending deltas resolve (after clamping) to the current position. -/
theorem duration_guard_aborts_step (c : ScannerConfig) (m : ℝ) (env : PollEnv)
    (s : ScannerState)
    (hguard : iter_duration c m s ≤ 0 ∨ iter_duration c m s > 60) :
    processIteration c m env s =
      ({ s with horizontal_movement_pending := 0, vertical_movement_pending := 0 },
        IterOutcome.abortedDuration) ∧
    (processIteration c m env s).1.current_position = s.current_position ∧
    (calculate_target_position c.grid_size s.current_position
        s.horizontal_movement_pending s.vertical_movement_pending = s.current_position →
      iter_duration c m s = 0) := by
  have habort := processIteration_aborted c m env s hguard
  refine ⟨habort, by rw [habort], fun htarget => ?_⟩
  unfold iter_duration
  rw [htarget]
  exact movement_time_self m s.current_position

/-- Witness for C7: at (10,5) on the 11-wide grid with pending (+1, 0) the
target clamps back to (10,5), the duration is zero, and the step aborts. -/
theorem duration_guard_aborts_step_witness :
    (iter_duration defaultConfig 3 ⟨⟨10, 5⟩, 1, 0, .ready, none, none, ∅, false⟩ ≤ 0 ∨
      iter_duration defaultConfig 3 ⟨⟨10, 5⟩, 1, 0, .ready, none, none, ∅, false⟩ > 60) ∧
    processIteration defaultConfig 3 ⟨0, 0, 0, 0⟩
        ⟨⟨10, 5⟩, 1, 0, .ready, none, none, ∅, false⟩ =
      (⟨⟨10, 5⟩, 0, 0, .ready, none, none, ∅, false⟩, IterOutcome.abortedDuration) := by
  have h0 : iter_duration defaultConfig 3
      ⟨⟨10, 5⟩, 1, 0, .ready, none, none, ∅, false⟩ = 0 := by
    unfold iter_duration
    rw [show calculate_target_position defaultConfig.grid_size
        (⟨⟨10, 5⟩, 1, 0, .ready, none, none, ∅, false⟩ : ScannerState).current_position
        1 0 = ⟨10, 5⟩ from by decide]
    exact movement_time_self 3 _
  exact ⟨Or.inl (le_of_eq h0),
    (duration_guard_aborts_step defaultConfig 3 ⟨0, 0, 0, 0⟩ _ (Or.inl (le_of_eq h0))).1⟩

lemma fromValue_value (st : OperationStatus) :
    OperationStatus.fromValue st.value = some st := by
  cases st <;> rfl

/-- Saving a state and loading it back into a fresh manager. -/
def roundtrip_state (c : ScannerConfig) (s : ScannerState) (db : ScannerDB) :
    ScannerState :=
  (_load_state_from_db c (_save_state_to_db_internal c s db) (freshState c)).1

/-- Claim C4: for a state whose position is in bounds, saving it and loading
into a fresh manager (with the durable captured rows matching the live set,
as capture-time persistence maintains) reproduces `currentPosition`,
`pendingHorizontal`, `pendingVertical` and `capturedPositions` exactly,
except that a stored `MOVING`/`FOCUSING` status is normalized to `READY`. -/
theorem save_load_roundtrip (c : ScannerConfig) (s : ScannerState) (db : ScannerDB)
    (hg : 1 ≤ c.grid_size)
    (hpos : s.current_position.is_within_bounds c.grid_size)
    (hcap : db.captured_rows = s.captured_positions) :
    (roundtrip_state c s db).current_position = s.current_position ∧
    (roundtrip_state c s db).horizontal_movement_pending = s.horizontal_movement_pending ∧
    (roundtrip_state c s db).vertical_movement_pending = s.vertical_movement_pending ∧
    (roundtrip_state c s db).captured_positions = s.captured_positions ∧
    (roundtrip_state c s db).operation_status =
      (if s.operation_status = OperationStatus.moving ∨
          s.operation_status = OperationStatus.focusing
        then OperationStatus.ready else s.operation_status) := by
  unfold roundtrip_state _load_state_from_db _save_state_to_db_internal save_row freshState
  dsimp only
  have hv : ¬ ¬ is_valid_position c.grid_size
      (⟨s.current_position.x, s.current_position.y⟩ : Position) := not_not_intro hpos
  rw [if_neg hv]
  rw [fromValue_value s.operation_status]
  dsimp only
  have ht : ¬ ¬ is_valid_position c.grid_size
      (calculate_target_position c.grid_size
        (⟨s.current_position.x, s.current_position.y⟩ : Position)
        s.horizontal_movement_pending s.vertical_movement_pending) :=
    not_not_intro (target_is_valid c.grid_size hg _ _ _)
  rw [if_neg ht]
  by_cases hst : s.operation_status = OperationStatus.moving ∨
      s.operation_status = OperationStatus.focusing
  · rw [if_pos hst, if_pos hst]
    dsimp only
    refine ⟨rfl, rfl, rfl, ?_, rfl⟩
    rw [Finset.empty_union, hcap]
  · rw [if_neg hst, if_neg hst]
    dsimp only
    refine ⟨rfl, rfl, rfl, ?_, rfl⟩
    rw [Finset.empty_union, hcap]

/-- Witness for C4: a state at (7,6) with pendings (2,-1), status MOVING and
one captured cell round-trips with the status normalized to READY. -/
theorem save_load_roundtrip_witness :
    (1 : Int) ≤ defaultConfig.grid_size ∧
    (roundtrip_state defaultConfig
        ⟨⟨7, 6⟩, 2, -1, .moving, none, none, {(7, 6)}, false⟩
        ⟨none, {(7, 6)}, []⟩).current_position = ⟨7, 6⟩ ∧
    (roundtrip_state defaultConfig
        ⟨⟨7, 6⟩, 2, -1, .moving, none, none, {(7, 6)}, false⟩
        ⟨none, {(7, 6)}, []⟩).horizontal_movement_pending = 2 ∧
    (roundtrip_state defaultConfig
        ⟨⟨7, 6⟩, 2, -1, .moving, none, none, {(7, 6)}, false⟩
        ⟨none, {(7, 6)}, []⟩).vertical_movement_pending = -1 ∧
    (roundtrip_state defaultConfig
        ⟨⟨7, 6⟩, 2, -1, .moving, none, none, {(7, 6)}, false⟩
        ⟨none, {(7, 6)}, []⟩).captured_positions = {(7, 6)} ∧
    (roundtrip_state defaultConfig
        ⟨⟨7, 6⟩, 2, -1, .moving, none, none, {(7, 6)}, false⟩
        ⟨none, {(7, 6)}, []⟩).operation_status = OperationStatus.ready := by
  obtain ⟨h1, h2, h3, h4, h5⟩ := save_load_roundtrip defaultConfig
    ⟨⟨7, 6⟩, 2, -1, .moving, none, none, {(7, 6)}, false⟩
    ⟨none, {(7, 6)}, []⟩ (by decide) (by decide) rfl
  exact ⟨by decide, h1, h2, h3, h4, by rw [h5]; decide⟩

/-- Claim C6: however a `process_operations` run ends (normally or with an
exception), the run flag is cleared, the final status is never `MOVING`, the
status is `READY` unless it was already `FOCUSING`, and the exception path
clears both pending deltas. -/
theorem process_exit_failsafe (s : ScannerState) (exc : Bool) :
    (process_exit s exc).is_processing = false ∧
    (process_exit s exc).operation_status ≠ OperationStatus.moving ∧
    ((process_exit s exc).operation_status = OperationStatus.ready ∨
      (s.operation_status = OperationStatus.focusing ∧
        (process_exit s exc).operation_status = OperationStatus.focusing)) ∧
    (process_exit s true).horizontal_movement_pending = 0 ∧
    (process_exit s true).vertical_movement_pending = 0 := by
  obtain ⟨p, h, v, st, t, dur, cap, proc⟩ := s
  cases exc <;> cases st <;> simp [process_exit]

lemma interrupt_advance_in_bounds (g : Int) (hg : 1 ≤ g) (pos : Position)
    (lph lpv blocks : Int) (hp : pos.is_within_bounds g) :
    (interrupt_advance g pos lph lpv blocks).1.is_within_bounds g := by
  unfold interrupt_advance
  by_cases h0 : blocks ≥ 1
  · rw [if_pos h0]
    by_cases h1 : lph ≠ 0 ∧ blocks ≥ 1
    · rw [if_pos h1]
      dsimp only
      by_cases h2 : lpv ≠ 0 ∧ blocks - min |lph| blocks ≥ 1
      · rw [if_pos h2]
        exact clamp_is_within_bounds g hg _
      · rw [if_neg h2]
        exact clamp_is_within_bounds g hg _
    · rw [if_neg h1]
      dsimp only
      by_cases h2 : lpv ≠ 0 ∧ blocks ≥ 1
      · rw [if_pos h2]
        exact clamp_is_within_bounds g hg _
      · rw [if_neg h2]
        exact hp
  · rw [if_neg h0]
    exact hp

lemma processIteration_pos_in_bounds (c : ScannerConfig) (m : ℝ) (env : PollEnv)
    (s : ScannerState) (hg : 1 ≤ c.grid_size)
    (hp : s.current_position.is_within_bounds c.grid_size) :
    (processIteration c m env s).1.current_position.is_within_bounds c.grid_size := by
  simp only [processIteration]
  split
  · exact hp
  · split
    · dsimp only
      exact interrupt_advance_in_bounds c.grid_size hg _ _ _ _ hp
    · dsimp only
      exact clamp_is_within_bounds c.grid_size hg _

lemma load_pos_in_bounds (c : ScannerConfig) (db : ScannerDB) (s : ScannerState)
    (hc : c.valid)
    (hp : s.current_position.is_within_bounds c.grid_size) :
    (_load_state_from_db c db s).1.current_position.is_within_bounds c.grid_size := by
  obtain ⟨hg, hdx0, hdxg, hdy0, hdyg⟩ := hc
  unfold _load_state_from_db
  cases hrow : db.state_row with
  | none =>
      dsimp only
      exact hp
  | some row =>
      dsimp only
      by_cases hv : is_valid_position c.grid_size
        ⟨row.current_position_x, row.current_position_y⟩
      · rw [if_neg (not_not_intro hv)]
        cases hparse : OperationStatus.fromValue row.operation_status with
        | none =>
            dsimp only
            exact ⟨hdx0, hdxg, hdy0, hdyg⟩
        | some st =>
            dsimp only
            split
            · split
              · exact hv
              · exact hv
            · split
              · exact hv
              · exact hv
      · rw [if_pos hv]
        dsimp only
        split
        · exact clamp_is_within_bounds c.grid_size hg _
        · exact clamp_is_within_bounds c.grid_size hg _

lemma process_exit_position (s : ScannerState) (exc : Bool) :
    (process_exit s exc).current_position = s.current_position := by
  unfold process_exit
  split <;> (dsimp only; split <;> rfl)

lemma applyOp_pos_in_bounds (c : ScannerConfig) (m : ℝ) (s : ScannerState)
    (op : ScannerOp) (hc : c.valid)
    (hp : s.current_position.is_within_bounds c.grid_size) :
    (applyOp c m s op).current_position.is_within_bounds c.grid_size := by
  cases op with
  | queue d =>
      show (queue_movement c s d).current_position.is_within_bounds c.grid_size
      rw [queue_movement_position]
      exact hp
  | step env => exact processIteration_pos_in_bounds c m env s hc.1 hp
  | focusCapture now => exact hp
  | reset => exact ⟨hc.2.1, hc.2.2.1, hc.2.2.2.1, hc.2.2.2.2⟩
  | load db => exact load_pos_in_bounds c db s hc hp
  | runExit exc =>
      show (process_exit s exc).current_position.is_within_bounds c.grid_size
      rw [process_exit_position]
      exact hp

/-- Claim C5: from any in-bounds position (in particular the validated
default), every sequence of state-mutating operations — queuing, movement
iterations (interrupted or completed), focus/capture, reset, loads, and run
exits — keeps both coordinates of `currentPosition` within
`[0, gridSize - 1]`, so every observed snapshot reports an in-bounds
position. -/
theorem position_stays_in_bounds (c : ScannerConfig) (m : ℝ) (s : ScannerState)
    (ops : List ScannerOp) (hc : c.valid)
    (hs : s.current_position.is_within_bounds c.grid_size) :
    (runOps c m s ops).current_position.is_within_bounds c.grid_size := by
  induction ops generalizing s with
  | nil => exact hs
  | cons op ops ih => exact ih (applyOp c m s op) (applyOp_pos_in_bounds c m s op hc hs)

/-- Witness for C5: the default config is valid, the fresh state starts in
bounds, and a queue-then-reset run ends in bounds. -/
theorem position_stays_in_bounds_witness :
    defaultConfig.valid ∧
    (freshState defaultConfig).current_position.is_within_bounds
      defaultConfig.grid_size ∧
    (runOps defaultConfig 3 (freshState defaultConfig)
        [ScannerOp.queue Direction.right,
          ScannerOp.reset]).current_position.is_within_bounds defaultConfig.grid_size :=
  ⟨by decide, by decide,
    position_stays_in_bounds defaultConfig 3 (freshState defaultConfig)
      [ScannerOp.queue Direction.right, ScannerOp.reset] (by decide) (by decide)⟩

/-- Claim C10: `clamp_to_bounds` is pure — in this embedding it returns a new
`Position` and cannot mutate its receiver — so the bare-statement calls of
it before saving (line 241), before the queue-move log (line 375) and before
capture (line 614) leave `current_position` unchanged, and the value then
persisted or captured is the unclamped `current_position`: the saved row
carries the raw coordinates, and focus/capture inserts the raw tuple. -/
theorem clamp_statement_frame (c : ScannerConfig) (now : ℝ) (s : ScannerState)
    (d : Direction) :
    (save_row c s).current_position_x = s.current_position.x ∧
    (save_row c s).current_position_y = s.current_position.y ∧
    (focus_and_capture_state c now s).current_position = s.current_position ∧
    (focus_and_capture_state c now s).captured_positions =
      insert s.current_position.to_tuple s.captured_positions ∧
    (queue_movement c s d).current_position = s.current_position ∧
    Position.clamp_to_bounds ⟨15, 5⟩ 11 = ⟨10, 5⟩ ∧
    (save_row defaultConfig ⟨⟨15, 5⟩, 0, 0, .ready, none, none, ∅, false⟩).current_position_x = 15 :=
  ⟨rfl, rfl, rfl, rfl, queue_movement_position c s d, by decide, rfl⟩

/-- Claim C8: resetting twice yields exactly the state and database produced
by resetting once — default position, zero pendings, `READY`, empty captured
set — and both the live captured set and the durable capture/operation
history are cleared. -/
theorem reset_scanner_idempotent (c : ScannerConfig) (s : ScannerState) (db : ScannerDB) :
    reset_scanner c (reset_scanner c s db).1 (reset_scanner c s db).2 =
      reset_scanner c s db ∧
    (reset_scanner c s db).1 = reset_state c ∧
    (reset_scanner c s db).1.captured_positions = ∅ ∧
    (reset_scanner c s db).2.captured_rows = ∅ ∧
    (reset_scanner c s db).2.operations = [] :=
  ⟨rfl, rfl, rfl, rfl, rfl⟩

end SlideScanner
